import Mathlib

/-!
Verification of the process-supervision and status-fanout core of a
WhatsApp bridge service (src/main.py): a liveness prober, a process
supervisor with restart logic, a connection registry with broadcast,
a background watcher loop, and thin HTTP handlers.  Python functions
are shallowly embedded as Lean functions over explicit state; the
outcome of each external effect (HTTP probe, signal delivery, process
spawn) is supplied by an environment record, and fallible Python code
is embedded in the Except monad.
-/

namespace WhatsappMain

/-- Outcome of the requests.get call against the backend status
endpoint: either a response carrying an HTTP status code, or a
requests.exceptions.RequestException (network error or timeout). -/
inductive ProbeOutcome where
  | ok (status : Nat)
  | netErr
  deriving DecidableEq, Repr

/-- Embedding of check_node_server (src/main.py lines 46-52): issue a
2s-timeout GET to the backend status endpoint; return whether the
status code equals 200; any RequestException is caught and folded into
the result false.  Total by construction, so it never raises. -/
def check_node_server : ProbeOutcome → Bool
  | ProbeOutcome.ok status => status == 200
  | ProbeOutcome.netErr => false

/-- Mutable module-level state touched by the supervisor: the tracked
child process handle (wa_process, a pid when present), the presence of
the two filesystem artifacts, and a counter supplying fresh pids. -/
structure SupState where
  waProcess : Option Nat
  qrFile : Bool
  loginFlag : Bool
  nextPid : Nat
  deriving DecidableEq, Repr

/-- Environment of one ensure_server_running call: outcome of the
initial probe, whether os.kill finds the process alive (false models a
ProcessLookupError), whether subprocess.Popen succeeds (false models
FileNotFoundError or PermissionError), outcome of the re-probe after
the settle period. -/
structure Env where
  probe1 : ProbeOutcome
  procAlive : Bool
  spawnOk : Bool
  probe2 : ProbeOutcome
  deriving DecidableEq, Repr

/-- Observable actions performed by the supervisor, recorded in order. -/
inductive Action where
  | probe
  | sigterm (pid : Nat)
  | sigkill (pid : Nat)
  | sleep (secs : Nat)
  | removeFile (name : String)
  | spawn (pid : Nat)
  deriving DecidableEq, Repr

/-- Deletion of the two stale artifact files (src/main.py lines 73-76):
os.remove is called for each of the two paths that exists. -/
def clean_old_files (s : SupState) : SupState × List Action :=
  ({ s with qrFile := false, loginFlag := false },
    (if s.qrFile then [Action.removeFile "static/whatsapp_qr.png"] else []) ++
    (if s.loginFlag then [Action.removeFile "static/login_success.flag"] else []))

/-- Embedding of ensure_server_running (src/main.py lines 54-87).
Returns the Python result (Except models an uncaught exception
propagating to the caller), the final module state, and the trace of
actions.  Mirrors the source line by line: early return on a live
probe; SIGTERM plus a 1s sleep (skipped on ProcessLookupError) and
unconditional clearing of the handle when one exists; artifact
cleanup, Popen (which raises when spawnOk is false, after the files
were already removed), a 3s settle sleep, and a re-probe. -/
def ensure_server_running (env : Env) (s : SupState) :
    Except String Bool × SupState × List Action :=
  if check_node_server env.probe1 then
    (Except.ok true, s, [Action.probe])
  else
    let killStep : SupState × List Action :=
      match s.waProcess with
      | some p =>
          if env.procAlive then
            ({ s with waProcess := none }, [Action.sigterm p, Action.sleep 1])
          else
            ({ s with waProcess := none }, [Action.sigterm p])
      | none => (s, [])
    let s1 := killStep.1
    let tr1 := Action.probe :: killStep.2
    if s1.waProcess = none then
      let cleaned := clean_old_files s1
      let s2 := cleaned.1
      let tr2 := tr1 ++ cleaned.2
      if env.spawnOk then
        let pid := s2.nextPid
        let s3 := { s2 with waProcess := some pid, nextPid := s2.nextPid + 1 }
        (Except.ok (check_node_server env.probe2), s3,
          tr2 ++ [Action.spawn pid, Action.sleep 3, Action.probe])
      else
        (Except.error "FileNotFoundError: node", s2, tr2)
    else
      (Except.ok false, s1, tr1)

/-- A registered duplex (websocket) connection: an identifier and
whether a send_text on its channel succeeds (false models a closed
channel whose send raises). -/
structure Conn where
  id : Nat
  sendOk : Bool
  deriving DecidableEq, Repr

/-- The connection registry: the active_connections list of the
ConnectionManager (src/main.py lines 19-32). -/
structure ConnectionManager where
  active_connections : List Conn
  deriving DecidableEq, Repr

/-- Loop body of broadcast over the registered connections: awaits
send_text on each in order; the first failing send raises, aborting
the remaining iterations.  Returns the ids that received the message
and the overall outcome (error carries the failing id). -/
def broadcastRun (msg : String) : List Conn → List Nat × Except Nat Unit
  | [] => ([], Except.ok ())
  | c :: rest =>
      if c.sendOk then
        let r := broadcastRun msg rest
        (c.id :: r.1, r.2)
      else
        ([], Except.error c.id)

/-- Embedding of ConnectionManager.broadcast (src/main.py lines
30-32): a plain for loop over active_connections calling send_text; no
try/except and no removal, so the registry is returned unchanged in
every case. -/
def ConnectionManager.broadcast (m : ConnectionManager) (msg : String) :
    (List Nat × Except Nat Unit) × ConnectionManager :=
  (broadcastRun msg m.active_connections, m)

/-- Semantics of the Python list.remove method: removes the first
occurrence of the element, raising a ValueError when it is absent. -/
def listRemove (x : Conn) : List Conn → Except String (List Conn)
  | [] => Except.error "ValueError"
  | y :: rest =>
      if y = x then Except.ok rest
      else
        match listRemove x rest with
        | Except.ok l => Except.ok (y :: l)
        | Except.error e => Except.error e

/-- Embedding of ConnectionManager.disconnect (src/main.py lines
27-28): self.active_connections.remove(websocket), with the exception
behaviour of list.remove. -/
def ConnectionManager.disconnect (m : ConnectionManager) (c : Conn) :
    Except String ConnectionManager :=
  match listRemove c m.active_connections with
  | Except.ok l => Except.ok { active_connections := l }
  | Except.error e => Except.error e

/-- Status snapshot returned by the GET /status handler. -/
structure StatusResp where
  logged_in : Bool
  qr_available : Bool
  server_running : Bool
  deriving DecidableEq, Repr

/-- Embedding of check_qr (src/main.py lines 37-38): presence of the
QR image file. -/
def check_qr (s : SupState) : Bool := s.qrFile

/-- Embedding of check_login (src/main.py lines 40-44): presence of
the login flag file. -/
def check_login (s : SupState) : Bool := s.loginFlag

/-- Embedding of get_status, the GET /status handler (src/main.py
lines 168-179): probes the backend and reads both artifacts, returning
the three booleans. -/
def get_status (probe : ProbeOutcome) (s : SupState) : StatusResp :=
  { logged_in := check_login s, qr_available := check_qr s,
    server_running := check_node_server probe }

/-- Result of the GET /qr handler: the served image file, or the 404
HTTPException raised when the QR is still unavailable. -/
inductive QrResult where
  | file (path : String)
  | notFound
  deriving DecidableEq, Repr

/-- Embedding of get_qr, the GET /qr handler (src/main.py lines
153-166): serve the QR file when present; otherwise attempt one
restart via ensure_server_running, sleep 2s when it reports success
and re-check, and raise a 404 HTTPException when the image is still
absent.  An exception escaping ensure_server_running propagates. -/
def get_qr (env : Env) (s : SupState) :
    Except String QrResult × SupState × List Action :=
  if check_qr s then
    (Except.ok (QrResult.file "static/whatsapp_qr.png"), s, [])
  else
    match ensure_server_running env s with
    | (Except.error e, s1, tr) => (Except.error e, s1, tr)
    | (Except.ok true, s1, tr) =>
        if check_qr s1 then
          (Except.ok (QrResult.file "static/whatsapp_qr.png"), s1, tr ++ [Action.sleep 2])
        else
          (Except.ok QrResult.notFound, s1, tr ++ [Action.sleep 2])
    | (Except.ok false, s1, tr) => (Except.ok QrResult.notFound, s1, tr)

/-- JSON body returned by the GET /start handler. -/
structure StartBody where
  status : String
  server_running : Bool
  message : Option String
  deriving DecidableEq, Repr

/-- Embedding of start_login, the GET /start handler (src/main.py
lines 146-151): the HTTP status code and JSON body produced from the
result of ensure_server_running; an exception escaping the ensure call
propagates to the framework (which answers with a 5xx). -/
def start_login (env : Env) (s : SupState) :
    Except String (Nat × StartBody) × SupState :=
  match ensure_server_running env s with
  | (Except.ok true, s1, _) =>
      (Except.ok (200, { status := "initialized", server_running := true, message := none }), s1)
  | (Except.ok false, s1, _) =>
      (Except.ok (200, { status := "error", server_running := false,
                         message := some "Could not start Node.js server" }), s1)
  | (Except.error e, s1, _) => (Except.error e, s1)

/-- Observable actions of one watcher iteration. -/
inductive WAction where
  | broadcastMsg (msg : String)
  | ensureCall
  | logError (e : String)
  | sleep (secs : Nat)
  deriving DecidableEq, Repr

/-- Environment of one watcher iteration: outcome of its own liveness
probe and the environment consumed by an inner ensure_server_running
call. -/
structure WatchEnv where
  probe : ProbeOutcome
  ensureEnv : Env
  deriving DecidableEq, Repr

/-- Shared state seen by the watcher: the supervisor module state and
the connection registry. -/
structure WatchState where
  sup : SupState
  mgr : ConnectionManager
  deriving DecidableEq, Repr

/-- Embedding of the try-block body of one process_watcher iteration
(src/main.py lines 93-106): probe the backend, read the login flag,
broadcast login_success to the registered connections when logged in,
and call ensure_server_running when the backend is down and the login
flag does not hold (the source evaluates two separate ifs whose
conditions are mutually exclusive on logged_in).  Returns the outcome
(an error models an exception escaping the body), the updated state,
the action trace, and the ids that received the broadcast. -/
def watcher_body (env : WatchEnv) (st : WatchState) :
    Except String Unit × WatchState × List WAction × List Nat :=
  let server_running := check_node_server env.probe
  let logged_in := check_login st.sup
  if logged_in then
    let b := ConnectionManager.broadcast st.mgr "login_success"
    match b.1.2 with
    | Except.error _ =>
        (Except.error "send failed", { st with mgr := b.2 },
          [WAction.broadcastMsg "login_success"], b.1.1)
    | Except.ok _ =>
        (Except.ok (), { st with mgr := b.2 },
          [WAction.broadcastMsg "login_success"], b.1.1)
  else
    if server_running then (Except.ok (), st, [], [])
    else
      match ensure_server_running env.ensureEnv st.sup with
      | (Except.error e, s1, _) =>
          (Except.error e, { st with sup := s1 }, [WAction.ensureCall], [])
      | (Except.ok _, s1, _) =>
          (Except.ok (), { st with sup := s1 }, [WAction.ensureCall], [])

/-- Embedding of one full loop iteration of process_watcher
(src/main.py lines 92-111): the try body, the except clause that logs
and swallows any exception, then the unconditional 5s sleep before the
next iteration. -/
def process_watcher_step (env : WatchEnv) (st : WatchState) :
    WatchState × List WAction :=
  match watcher_body env st with
  | (Except.error e, st1, tr, _) =>
      (st1, tr ++ [WAction.logError e, WAction.sleep 5])
  | (Except.ok _, st1, tr, _) => (st1, tr ++ [WAction.sleep 5])

/-- The while-true loop of process_watcher, run through the first
iterations listed by the environment schedule: returns the final state
and one action trace per executed iteration. -/
def process_watcher (envs : List WatchEnv) (st : WatchState) :
    WatchState × List (List WAction) :=
  match envs with
  | [] => (st, [])
  | e :: rest =>
      let step := process_watcher_step e st
      let tail := process_watcher rest step.1
      (tail.1, step.2 :: tail.2)

/-- Program counter of one task executing ensure_server_running under
the cooperative asyncio scheduler: code between two awaits runs
atomically, and the awaited sleeps are the suspension points. -/
inductive TaskPC where
  | entry
  | atKillSleep
  | atSettleSleep
  | finished (res : Bool)
  deriving DecidableEq, Repr

/-- Whether a task has returned from its call. -/
def TaskPC.isDone : TaskPC → Bool
  | TaskPC.finished _ => true
  | _ => false

/-- Global state shared by two overlapping ensure_server_running
calls, in an environment where the backend is down at every probe (as
it is while a freshly spawned backend is still starting), signalled
processes are alive, and spawns succeed: the two program counters, the
shared wa_process handle, a fresh-pid counter and a per-task count of
executed spawn operations. -/
structure ConcState where
  pc1 : TaskPC
  pc2 : TaskPC
  waProcess : Option Nat
  nextPid : Nat
  spawns1 : Nat
  spawns2 : Nat
  deriving DecidableEq, Repr

/-- Advance one task from its suspension point to the next, following
the source of ensure_server_running with every probe failing: from the
top, a task either SIGTERMs the existing tracked process and suspends
at the 1s sleep, or cleans the artifacts, spawns, records the fresh
handle and suspends at the 3s settle sleep; resuming from the 1s sleep
clears the handle and falls through into the spawn block up to its
settle sleep; resuming from the settle sleep re-probes (failing) and
returns false. -/
def taskAdvance (pc : TaskPC) (wa : Option Nat) (nextPid spawns : Nat) :
    TaskPC × Option Nat × Nat × Nat :=
  match pc with
  | TaskPC.entry =>
      match wa with
      | some _ => (TaskPC.atKillSleep, wa, nextPid, spawns)
      | none => (TaskPC.atSettleSleep, some nextPid, nextPid + 1, spawns + 1)
  | TaskPC.atKillSleep =>
      (TaskPC.atSettleSleep, some nextPid, nextPid + 1, spawns + 1)
  | TaskPC.atSettleSleep => (TaskPC.finished false, wa, nextPid, spawns)
  | TaskPC.finished r => (TaskPC.finished r, wa, nextPid, spawns)

/-- Scheduler step: run the chosen task (true for the first) through
its next atomic block. -/
def concStep (s : ConcState) (tid : Bool) : ConcState :=
  if tid then
    let r := taskAdvance s.pc1 s.waProcess s.nextPid s.spawns1
    { s with pc1 := r.1, waProcess := r.2.1, nextPid := r.2.2.1,
             spawns1 := r.2.2.2 }
  else
    let r := taskAdvance s.pc2 s.waProcess s.nextPid s.spawns2
    { s with pc2 := r.1, waProcess := r.2.1, nextPid := r.2.2.1,
             spawns2 := r.2.2.2 }

/-- Run a schedule of task choices from a state. -/
def concRun (sched : List Bool) (s : ConcState) : ConcState :=
  match sched with
  | [] => s
  | t :: rest => concRun rest (concStep s t)

/-- Both overlapping calls begin at the top with no tracked process. -/
def concInit : ConcState :=
  { pc1 := TaskPC.entry, pc2 := TaskPC.entry, waProcess := none,
    nextPid := 1, spawns1 := 0, spawns2 := 0 }

end WhatsappMain

namespace WhatsappMain

/-- C6: check_node_server returns true exactly on a response with the
success status code 200; a network error or timeout yields false, a
non-success status yields false, and the function is total over every
outcome of the request, so no exception reaches its caller. -/
theorem C6_probe_folds_failure_to_false :
    (∀ o : ProbeOutcome, check_node_server o = true ↔ o = ProbeOutcome.ok 200) ∧
    check_node_server ProbeOutcome.netErr = false ∧
    (∀ n : Nat, n ≠ 200 → check_node_server (ProbeOutcome.ok n) = false) := by
  refine ⟨?_, rfl, ?_⟩
  · intro o
    cases o with
    | ok status =>
        simp [check_node_server]
    | netErr =>
        simp [check_node_server]
  · intro n hn
    simp [check_node_server, hn]

/-- Closed witness for C6 at concrete outcomes. -/
theorem C6_probe_folds_failure_to_false_witness :
    check_node_server (ProbeOutcome.ok 503) = false :=
  C6_probe_folds_failure_to_false.2.2 503 (by decide)

/-- C2 is a code bug: ensure_server_running wraps no try/except around
subprocess.Popen, so a spawn failure (node executable missing,
permission denied) propagates as an exception to the caller instead of
being swallowed into the boolean result false.  Evaluated at the
failing input: backend unreachable, no tracked process, spawn fails. -/
theorem C2_spawn_failure_raises_not_false :
    (ensure_server_running
        { probe1 := ProbeOutcome.netErr, procAlive := true,
          spawnOk := false, probe2 := ProbeOutcome.netErr }
        { waProcess := none, qrFile := false, loginFlag := false, nextPid := 1 }).1
      = Except.error "FileNotFoundError: node" := rfl

/-- C5 counterexample: the claimed flow fails on the code at concrete
inputs in its stated range.  First, with a tracked process that the
SIGTERM finds already gone (ProcessLookupError), the call does not
wait the claimed ~1s: the signal is attempted but no 1s sleep appears
in the trace.  Second, with a failing spawn, the call does not return
the re-probe result: ensure_server_running raises instead. -/
theorem C5_claimed_flow_fails :
    (Action.sigterm 7 ∈ (ensure_server_running
        { probe1 := ProbeOutcome.netErr, procAlive := false,
          spawnOk := true, probe2 := ProbeOutcome.netErr }
        { waProcess := some 7, qrFile := false, loginFlag := false,
          nextPid := 8 }).2.2 ∧
     Action.sleep 1 ∉ (ensure_server_running
        { probe1 := ProbeOutcome.netErr, procAlive := false,
          spawnOk := true, probe2 := ProbeOutcome.netErr }
        { waProcess := some 7, qrFile := false, loginFlag := false,
          nextPid := 8 }).2.2) ∧
    (ensure_server_running
        { probe1 := ProbeOutcome.netErr, procAlive := true,
          spawnOk := false, probe2 := ProbeOutcome.netErr }
        { waProcess := some 3, qrFile := true, loginFlag := false,
          nextPid := 5 }).1
      = Except.error "FileNotFoundError: node" :=
  ⟨by decide, rfl⟩

/-- C5 amended: flow of ensure_server_running.  If the initial probe
succeeds the call returns true at once with no action beyond the probe
itself.  Otherwise: any existing handle is sent the graceful SIGTERM
(never SIGKILL), the 1s wait follows exactly when the signalled
process still exists (a ProcessLookupError skips it), and the handle
is cleared and replaced regardless of whether termination was
confirmed; each stale artifact is deleted exactly when present; then a
spawn of a new process is attempted: on success the fresh handle is
recorded, the 3s settle sleep occurs, and the call returns the
re-probe outcome; on failure no process is spawned and the exception
propagates to the caller. -/
theorem C5_ensure_running_flow (env : Env) (s : SupState) :
    (check_node_server env.probe1 = true →
      ensure_server_running env s = (Except.ok true, s, [Action.probe])) ∧
    (check_node_server env.probe1 = false →
      (∀ p, s.waProcess = some p →
          Action.sigterm p ∈ (ensure_server_running env s).2.2 ∧
          (env.procAlive = true →
            Action.sleep 1 ∈ (ensure_server_running env s).2.2) ∧
          (env.procAlive = false →
            Action.sleep 1 ∉ (ensure_server_running env s).2.2)) ∧
      (∀ q, Action.sigkill q ∉ (ensure_server_running env s).2.2) ∧
      (Action.removeFile "static/whatsapp_qr.png" ∈ (ensure_server_running env s).2.2
        ↔ s.qrFile = true) ∧
      (Action.removeFile "static/login_success.flag" ∈ (ensure_server_running env s).2.2
        ↔ s.loginFlag = true) ∧
      (env.spawnOk = true →
        ((ensure_server_running env s).2.1).waProcess = some s.nextPid ∧
        Action.spawn s.nextPid ∈ (ensure_server_running env s).2.2 ∧
        Action.sleep 3 ∈ (ensure_server_running env s).2.2 ∧
        (ensure_server_running env s).1 = Except.ok (check_node_server env.probe2)) ∧
      (env.spawnOk = false →
        (ensure_server_running env s).1 = Except.error "FileNotFoundError: node" ∧
        ∀ pid, Action.spawn pid ∉ (ensure_server_running env s).2.2)) := by
  rcases env with ⟨p1, alive, sp, p2⟩
  rcases s with ⟨wp, qf, lf, np⟩
  constructor
  · intro h1
    simp [ensure_server_running, h1]
  · intro h1
    rcases wp with _ | p <;> cases alive <;> cases qf <;> cases lf <;> cases sp <;>
      simp [ensure_server_running, clean_old_files, h1]

/-- Closed witness for C5: at a concrete failing probe with a live
tracked process and a successful spawn, the result is the re-probe
outcome. -/
theorem C5_ensure_running_flow_witness :
    (ensure_server_running
        { probe1 := ProbeOutcome.netErr, procAlive := true,
          spawnOk := true, probe2 := ProbeOutcome.ok 200 }
        { waProcess := some 7, qrFile := true, loginFlag := true, nextPid := 8 }).1
      = Except.ok true :=
  (((C5_ensure_running_flow
      { probe1 := ProbeOutcome.netErr, procAlive := true,
        spawnOk := true, probe2 := ProbeOutcome.ok 200 }
      { waProcess := some 7, qrFile := true, loginFlag := true, nextPid := 8 }).2
    rfl).2.2.2.2.1 rfl).2.2.2

/-- C3 is a code bug: broadcast iterates the registry with a bare
loop, so one failing send aborts delivery to the connections after it,
and the failing connection is never unregistered.  At the registry
[conn 1 ok, conn 2 failing, conn 3 ok], only conn 1 receives the
message, the loop raises on conn 2, and the registry afterwards still
holds all three connections, conn 2 included. -/
theorem C3_broadcast_aborts_and_keeps_failed_conn :
    (ConnectionManager.broadcast
        { active_connections := [{ id := 1, sendOk := true },
          { id := 2, sendOk := false }, { id := 3, sendOk := true }] } "login_success")
      = (([1], Except.error 2),
        { active_connections := [{ id := 1, sendOk := true },
          { id := 2, sendOk := false }, { id := 3, sendOk := true }] }) := rfl

/-- C4 is a code bug: disconnect delegates to the list.remove method
of Python, which raises ValueError when the element is absent, so a
second disconnect of the same connection errors instead of being
idempotent.  Evaluated at a one-element registry: the first call
succeeds, the second raises ValueError. -/
theorem C4_second_disconnect_raises :
    ConnectionManager.disconnect
        { active_connections := [{ id := 1, sendOk := true }] }
        { id := 1, sendOk := true }
      = Except.ok { active_connections := [] } ∧
    ConnectionManager.disconnect { active_connections := [] }
        { id := 1, sendOk := true }
      = Except.error "ValueError" := by
  constructor <;> rfl

/-- C9: whenever the liveness probe fails, the status snapshot reports
server_running false regardless of artifact state; and in the scenario
of a backend that is never reachable with no artifacts present,
GET /status returns all three fields false while GET /qr raises the
404 HTTPException after attempting one restart (a spawn occurs in its
trace) including the settle wait. -/
theorem C9_unreachable_backend_status_and_qr (env : Env) (s : SupState)
    (h1 : check_node_server env.probe1 = false)
    (h2 : check_node_server env.probe2 = false)
    (hspawn : env.spawnOk = true)
    (hq : s.qrFile = false) (hl : s.loginFlag = false) :
    (∀ (probe : ProbeOutcome) (t : SupState),
        check_node_server probe = false →
        (get_status probe t).server_running = false) ∧
    get_status env.probe1 s =
      { logged_in := false, qr_available := false, server_running := false } ∧
    (get_qr env s).1 = Except.ok QrResult.notFound ∧
    Action.spawn s.nextPid ∈ (get_qr env s).2.2 ∧
    Action.sleep 3 ∈ (get_qr env s).2.2 := by
  rcases env with ⟨p1, alive, sp, p2⟩
  rcases s with ⟨wp, qf, lf, np⟩
  simp only at h1 h2 hq hl hspawn
  subst hq hl hspawn
  refine ⟨?_, ?_, ?_⟩
  · intro probe t hp
    simp [get_status, hp]
  · simp [get_status, check_login, check_qr, h1]
  · rcases wp with _ | p <;> cases alive <;>
      simp [get_qr, ensure_server_running, clean_old_files, check_qr, h1, h2]

/-- Closed witness for C9 at a concrete never-reachable environment
with an empty filesystem and no tracked process. -/
theorem C9_unreachable_backend_status_and_qr_witness :
    (get_qr
        { probe1 := ProbeOutcome.netErr, procAlive := true,
          spawnOk := true, probe2 := ProbeOutcome.netErr }
        { waProcess := none, qrFile := false, loginFlag := false, nextPid := 1 }).1
      = Except.ok QrResult.notFound :=
  (C9_unreachable_backend_status_and_qr
      { probe1 := ProbeOutcome.netErr, procAlive := true,
        spawnOk := true, probe2 := ProbeOutcome.netErr }
      { waProcess := none, qrFile := false, loginFlag := false, nextPid := 1 }
      rfl rfl rfl rfl rfl).2.2.1

/-- C10 counterexample: GET /start does not always answer 200.  When
the backend is unreachable and the spawn fails (node executable
missing), ensure_server_running raises, the exception escapes the
start_login handler, and the framework answers with a 5xx rather than
a 200 body. -/
theorem C10_start_can_escape_with_exception :
    (start_login
        { probe1 := ProbeOutcome.netErr, procAlive := true,
          spawnOk := false, probe2 := ProbeOutcome.netErr }
        { waProcess := none, qrFile := false, loginFlag := false, nextPid := 1 }).1
      = Except.error "FileNotFoundError: node" ∧
    (start_login
        { probe1 := ProbeOutcome.netErr, procAlive := true,
          spawnOk := false, probe2 := ProbeOutcome.netErr }
        { waProcess := none, qrFile := false, loginFlag := false, nextPid := 1 }).1
      ≠ Except.ok (200, { status := "error", server_running := false,
                          message := some "Could not start Node.js server" }) := by
  refine ⟨rfl, ?_⟩
  intro h
  exact Except.noConfusion h

/-- C10 amended: whenever ensure_server_running returns normally, the
GET /start handler answers 200, and an ensure failure (the false
return) is surfaced only inside the 200 body as status error with
server_running false and a message; only an exception escaping
ensure_server_running (for example a spawn failure) bypasses the 200
path. -/
theorem C10_start_200_when_ensure_returns (env : Env) (s : SupState)
    (b : Bool) (s1 : SupState) (tr : List Action)
    (h : ensure_server_running env s = (Except.ok b, s1, tr)) :
    start_login env s =
      (Except.ok (200,
        if b then
          { status := "initialized", server_running := true, message := none }
        else
          { status := "error", server_running := false,
            message := some "Could not start Node.js server" }), s1) := by
  cases b <;> simp [start_login, h]

/-- Closed witness for C10: at a reachable backend the handler answers
200 with the initialized body. -/
theorem C10_start_200_when_ensure_returns_witness :
    start_login
        { probe1 := ProbeOutcome.ok 200, procAlive := true,
          spawnOk := true, probe2 := ProbeOutcome.ok 200 }
        { waProcess := none, qrFile := false, loginFlag := false, nextPid := 1 }
      = (Except.ok (200, { status := "initialized", server_running := true,
                           message := none }),
        { waProcess := none, qrFile := false, loginFlag := false, nextPid := 1 }) :=
  C10_start_200_when_ensure_returns
    { probe1 := ProbeOutcome.ok 200, procAlive := true,
      spawnOk := true, probe2 := ProbeOutcome.ok 200 }
    { waProcess := none, qrFile := false, loginFlag := false, nextPid := 1 }
    true
    { waProcess := none, qrFile := false, loginFlag := false, nextPid := 1 }
    [Action.probe] rfl

/-- When every registered send succeeds, the broadcast loop delivers
to every connection in registration order and raises nothing. -/
theorem broadcastRun_all_ok (msg : String) (l : List Conn)
    (h : ∀ c ∈ l, c.sendOk = true) :
    broadcastRun msg l = (l.map Conn.id, Except.ok ()) := by
  induction l with
  | nil => rfl
  | cons c rest ih =>
      have hc : c.sendOk = true := h c (List.mem_cons_self c rest)
      have hr := ih (fun d hd => h d (List.mem_cons_of_mem c hd))
      simp [broadcastRun, hc, hr]

/-- C7: within one watcher iteration, the login_success broadcast is
attempted exactly when the login flag holds (on every iteration while
it holds, not edge-triggered), ensure_server_running is invoked
exactly when the backend probe failed and the login flag does not
hold, and when every registered send succeeds a held login flag gets
the notification delivered to every registered connection. -/
theorem C7_watcher_broadcast_and_restart_conditions
    (env : WatchEnv) (st : WatchState) :
    (WAction.broadcastMsg "login_success" ∈ (watcher_body env st).2.2.1 ↔
      check_login st.sup = true) ∧
    (WAction.ensureCall ∈ (watcher_body env st).2.2.1 ↔
      (check_node_server env.probe = false ∧ check_login st.sup = false)) ∧
    ((∀ c ∈ st.mgr.active_connections, c.sendOk = true) →
      check_login st.sup = true →
      (watcher_body env st).2.2.2 = st.mgr.active_connections.map Conn.id) := by
  cases hl : check_login st.sup with
  | true =>
      rcases hb : (broadcastRun "login_success" st.mgr.active_connections).2
        with e | u
      · refine ⟨?_, ?_, ?_⟩ <;>
          simp [watcher_body, ConnectionManager.broadcast, hl, hb]
        intro hall
        rw [broadcastRun_all_ok _ _ hall] at hb
        exact Except.noConfusion hb
      · refine ⟨?_, ?_, ?_⟩ <;>
          simp [watcher_body, ConnectionManager.broadcast, hl, hb]
        intro hall
        rw [broadcastRun_all_ok _ _ hall]
  | false =>
      cases hp : check_node_server env.probe with
      | true =>
          refine ⟨?_, ?_, ?_⟩ <;> simp [watcher_body, hl, hp]
      | false =>
          rcases he : ensure_server_running env.ensureEnv st.sup
            with ⟨r, s1, tr⟩
          cases r <;> refine ⟨?_, ?_, ?_⟩ <;>
            simp [watcher_body, hl, hp, he]

/-- Closed witness for C7: a logged-in state with one healthy
registered connection receives the notification. -/
theorem C7_watcher_broadcast_and_restart_conditions_witness :
    (watcher_body
        { probe := ProbeOutcome.ok 200,
          ensureEnv := { probe1 := ProbeOutcome.ok 200, procAlive := true,
                         spawnOk := true, probe2 := ProbeOutcome.ok 200 } }
        { sup := { waProcess := none, qrFile := false, loginFlag := true,
                   nextPid := 1 },
          mgr := { active_connections := [{ id := 5, sendOk := true }] } }).2.2.2
      = [5] :=
  (C7_watcher_broadcast_and_restart_conditions
      { probe := ProbeOutcome.ok 200,
        ensureEnv := { probe1 := ProbeOutcome.ok 200, procAlive := true,
                       spawnOk := true, probe2 := ProbeOutcome.ok 200 } }
      { sup := { waProcess := none, qrFile := false, loginFlag := true,
                 nextPid := 1 },
        mgr := { active_connections := [{ id := 5, sendOk := true }] } }).2.2
    (by decide) rfl

/-- C8: the watcher loop is never terminated by an iteration error: a
run of the loop executes one iteration per scheduled environment no
matter which iterations fail, an exception escaping the body of an
iteration is logged and swallowed with the 5s sleep still following,
and every iteration ends by sleeping 5s before the next. -/
theorem C8_watcher_survives_iteration_errors :
    (∀ (envs : List WatchEnv) (st : WatchState),
        ((process_watcher envs st).2).length = envs.length) ∧
    (∀ (env : WatchEnv) (st : WatchState) (e : String) (st1 : WatchState)
        (tr : List WAction) (d : List Nat),
        watcher_body env st = (Except.error e, st1, tr, d) →
        process_watcher_step env st =
          (st1, tr ++ [WAction.logError e, WAction.sleep 5])) ∧
    (∀ (env : WatchEnv) (st : WatchState),
        WAction.sleep 5 ∈ (process_watcher_step env st).2) := by
  refine ⟨?_, ?_, ?_⟩
  · intro envs
    induction envs with
    | nil => intro st; rfl
    | cons e rest ih => intro st; simp [process_watcher, ih]
  · intro env st e st1 tr d h
    simp [process_watcher_step, h]
  · intro env st
    rcases h : watcher_body env st with ⟨r, st1, tr, d⟩
    cases r <;> simp [process_watcher_step, h]

/-- Closed witness for C8: an iteration whose broadcast raises (one
closed connection, login flag held) is logged and still ends with the
5s sleep. -/
theorem C8_watcher_survives_iteration_errors_witness :
    process_watcher_step
        { probe := ProbeOutcome.ok 200,
          ensureEnv := { probe1 := ProbeOutcome.ok 200, procAlive := true,
                         spawnOk := true, probe2 := ProbeOutcome.ok 200 } }
        { sup := { waProcess := none, qrFile := false, loginFlag := true,
                   nextPid := 1 },
          mgr := { active_connections := [{ id := 2, sendOk := false }] } }
      = ({ sup := { waProcess := none, qrFile := false, loginFlag := true,
                    nextPid := 1 },
           mgr := { active_connections := [{ id := 2, sendOk := false }] } },
         [WAction.broadcastMsg "login_success", WAction.logError "send failed",
          WAction.sleep 5]) :=
  C8_watcher_survives_iteration_errors.2.1
    { probe := ProbeOutcome.ok 200,
      ensureEnv := { probe1 := ProbeOutcome.ok 200, procAlive := true,
                     spawnOk := true, probe2 := ProbeOutcome.ok 200 } }
    { sup := { waProcess := none, qrFile := false, loginFlag := true,
               nextPid := 1 },
      mgr := { active_connections := [{ id := 2, sendOk := false }] } }
    "send failed"
    { sup := { waProcess := none, qrFile := false, loginFlag := true,
               nextPid := 1 },
      mgr := { active_connections := [{ id := 2, sendOk := false }] } }
    [WAction.broadcastMsg "login_success"] [] rfl

/-- C1 is a code bug: ensure_server_running holds no lock, so two
overlapping calls can both execute a spawn before either completes.
Under the schedule in which the first call runs from the top to its
settle sleep (spawning a process) and the second call then runs twice
(SIGTERMs that fresh process, suspends at its 1s sleep, then clears
the handle and spawns again), both tasks have executed one spawn each
while neither call has returned: the spawn steps of the two calls were
not serialized behind any mutual-exclusion guard. -/
theorem C1_overlapping_calls_double_spawn :
    (concRun [true, false, false] concInit).spawns1 = 1 ∧
    (concRun [true, false, false] concInit).spawns2 = 1 ∧
    (concRun [true, false, false] concInit).pc1.isDone = false ∧
    (concRun [true, false, false] concInit).pc2.isDone = false := by
  decide

end WhatsappMain
